import Mathlib

/-!
Verification development for `gammapy/astro/darkmatter/spectra.py`.

The module is embedded shallowly over `ℚ`:

* physical quantities are represented by their rational magnitudes, with an
  explicit unit-conversion factor where the code performs a unit conversion
  (`Quantity`);
* the transcendental ingredients of the code (`np.log10`, `np.log(10)`,
  `np.pi`) are abstract parameters of the evaluation functions, so every
  theorem below is universally quantified over them;
* the external collaborators that are not part of this module (the
  N-dimensional grid interpolation engine of `TemplateNDSpectralModel`, the
  table file, and the unit system) are modelled from the specification, with
  a doc comment saying so on each such definition;
* Python exceptions become `Except SpectraError`, in a purely functional
  state-passing style: a setter returns either an error or the updated
  record, so "state unchanged on rejection" is the `Except.error` branch.
-/

namespace DarkMatterSpectra

/-- The fixed channel registry of `PrimaryFlux.channel_registry`:
canonical channel name paired with the column label of the data file
(the Python source uses raw strings, so `r"\[Mu]L"` is backslash,
bracket, `Mu`, bracket, `L`). -/
def channel_registry : List (String × String) :=
  [("eL", "eL"),
   ("eR", "eR"),
   ("e", "e"),
   ("muL", "\\[Mu]L"),
   ("muR", "\\[Mu]R"),
   ("mu", "\\[Mu]"),
   ("tauL", "\\[Tau]L"),
   ("tauR", "\\[Tau]R"),
   ("tau", "\\[Tau]"),
   ("q", "q"),
   ("c", "c"),
   ("b", "b"),
   ("t", "t"),
   ("WL", "WL"),
   ("WT", "WT"),
   ("W", "W"),
   ("ZL", "ZL"),
   ("ZT", "ZT"),
   ("Z", "Z"),
   ("g", "g"),
   ("gamma", "\\[Gamma]"),
   ("h", "h"),
   ("nu_e", "\\[Nu]e"),
   ("nu_mu", "\\[Nu]\\[Mu]"),
   ("nu_tau", "\\[Nu]\\[Tau]"),
   ("V->e", "V->e"),
   ("V->mu", "V->\\[Mu]"),
   ("V->tau", "V->\\[Tau]")]

/-- `PrimaryFlux.allowed_channels`: the list of keys of the registry. -/
def allowed_channels : List String :=
  channel_registry.map Prod.fst

/-- A physical quantity of the unit system collaborator: a magnitude
together with the conversion factor of its unit into the internal mass
axis unit (GeV).  `u.Quantity(q).to("GeV")` has value `q.value * q.toGeV`. -/
structure Quantity where
  value : ℚ
  toGeV : ℚ
  deriving DecidableEq

/-- The GeV magnitude of a quantity (what `.to_value(unit)` returns for the
internal axis unit). -/
def Quantity.geV (q : Quantity) : ℚ :=
  q.value * q.toGeV

/-- The errors raised by the module, with the data carried by the Python
exception messages as explicit fields: `invalidChannel` reports the
requested channel and the full list of allowed names, `massOutOfBounds`
reports the converted mass value and the valid range. -/
inductive SpectraError where
  | invalidChannel (channel : String) (available : List String)
  | massOutOfBounds (mass : ℚ) (minMass maxMass : ℚ)
  | keyError (key : String)
  | indexError
  deriving DecidableEq

/-- Modelled from the spec: the 2-D grid interpolant collaborator built by
`PrimaryFlux.__init__` with `interp_kwargs = {"extrapolate": True,
"fill_value": 0, "values_scale": "lin"}`.  Its tabulated log10x axis spans
`[lo, hi]`; inside the domain it interpolates the channel column
(abstracted as `inner`), outside it returns the fill value 0.  The mass
axis interpolation is folded into `inner`. -/
structure FillValueGrid where
  lo : ℚ
  hi : ℚ
  inner : ℚ → ℚ → ℚ

/-- Modelled from the spec: evaluation of the grid interpolant at
coordinates `(log10x, mass)` — out-of-domain queries on the log-energy-ratio
axis yield the fill value 0, by the fill-value policy. -/
def FillValueGrid.eval (g : FillValueGrid) (log10x mass : ℚ) : ℚ :=
  if log10x < g.lo ∨ g.hi < log10x then 0 else g.inner log10x mass

/-- Modelled from the spec: the parsed flux table
(`AtProduction_gammas.dat`).  It provides the bounds of the mass axis
(`min(mass axis)`, `max(mass axis)` in GeV) and, for each channel, the grid
interpolant built from that channel's column. -/
structure FluxTable where
  massMin : ℚ
  massMax : ℚ
  gridFor : String → FillValueGrid

/-- The state of a `PrimaryFlux` instance: the chosen channel, the stored
mass parameter value (`self.mass.value`, in the internal unit GeV), the
mass parameter bounds (`self.mass.min` / `self.mass.max`, the mass-axis
extrema), and the grid interpolant. -/
structure PrimaryFlux where
  channel : String
  massValue : ℚ
  massMin : ℚ
  massMax : ℚ
  grid : FillValueGrid

/-- The `mDM` property getter: `u.Quantity(self.mass.value, "GeV")`,
represented by its GeV magnitude. -/
def PrimaryFlux.mDM (pf : PrimaryFlux) : ℚ :=
  pf.massValue

/-- The `mDM` property setter: convert the input quantity to the internal
axis unit, reject with `massOutOfBounds` if the converted value is below
`self.mass.min` or above `self.mass.max`, and only otherwise commit it to
`self.mass.value`. -/
def PrimaryFlux.setMDM (pf : PrimaryFlux) (m : Quantity) : Except SpectraError PrimaryFlux :=
  let v := m.geV
  if v < pf.massMin ∨ pf.massMax < v then
    .error (.massOutOfBounds v pf.massMin pf.massMax)
  else
    .ok { pf with massValue := v }

/-- The `channel` property setter: reject with `invalidChannel` (listing
every allowed name) when the requested channel is not a registry key,
otherwise store it. -/
def PrimaryFlux.setChannel (pf : PrimaryFlux) (c : String) : Except SpectraError PrimaryFlux :=
  if c ∉ allowed_channels then
    .error (.invalidChannel c allowed_channels)
  else
    .ok { pf with channel := c }

/-- Keyword arguments of a Python call, as an association list. -/
def Kwargs : Type :=
  List (String × ℚ)

/-- Dictionary lookup on keyword arguments. -/
def lookupKw (kwargs : Kwargs) (key : String) : Option ℚ :=
  (kwargs.find? (fun p => p.1 == key)).map Prod.snd

/-- `kwargs.update({key: v})`: afterwards `key` maps to `v` and every other
key keeps its binding. -/
def dictUpdate (kwargs : Kwargs) (key : String) (v : ℚ) : Kwargs :=
  (key, v) :: kwargs.filter (fun p => p.1 != key)

/-- Modelled from the spec: `TemplateNDSpectralModel.evaluate` (the
superclass of `PrimaryFlux`, not part of this module).  It queries the grid
interpolant at the coordinate tuple `(log10x, mass)`, taking the mass from
the `mass` keyword argument (the model's single non-energy axis parameter)
and defaulting to the stored parameter value. -/
def templateNDEvaluate (g : FillValueGrid) (defaultMass : ℚ) (log10x : ℚ)
    (kwargs : Kwargs) : ℚ :=
  g.eval log10x ((lookupKw kwargs "mass").getD defaultMass)

/-- `PrimaryFlux.evaluate(energy, **kwargs)`:
overwrite the `mass` keyword with the instance's own `mDM`, compute
`log10x = log10(energy / mDM)`, query the superclass interpolant, and apply
the Jacobian `dN/dE = dN/dlog10x / (energy * ln 10)`.
`log10` and `ln10` stand for `np.log10` and `np.log(10)`. -/
def PrimaryFlux.evaluate (log10 : ℚ → ℚ) (ln10 : ℚ) (pf : PrimaryFlux)
    (energy : ℚ) (kwargs : Kwargs) : ℚ :=
  let kwargs2 := dictUpdate kwargs "mass" pf.mDM
  let log10x := log10 (energy / pf.mDM)
  let dN_dlogx := templateNDEvaluate pf.grid pf.massValue log10x kwargs2
  dN_dlogx / (energy * ln10)

/-- `PrimaryFlux.__init__(mDM, channel)`: validate the channel against the
registry (via the `channel` setter), build the grid for that channel from
the table, then validate and set the mass via the `mDM` setter.  The table
file read itself is the collaborator `FluxTable`. -/
def PrimaryFlux.init (tbl : FluxTable) (mDM : Quantity) (channel : String) :
    Except SpectraError PrimaryFlux :=
  if channel ∉ allowed_channels then
    .error (.invalidChannel channel allowed_channels)
  else
    PrimaryFlux.setMDM
      { channel := channel
        massValue := tbl.massMin
        massMin := tbl.massMin
        massMax := tbl.massMax
        grid := tbl.gridFor channel } mDM

/-- `DarkMatterAnnihilationSpectralModel.THERMAL_RELIC_CROSS_SECTION`:
`3e-26` (cm³/s). -/
def THERMAL_RELIC_CROSS_SECTION : ℚ :=
  3e-26

/-- `DarkMatterDecaySpectralModel.LIFETIME_AGE_OF_UNIVERSE`: `4.3e17` (s). -/
def LIFETIME_AGE_OF_UNIVERSE : ℚ :=
  4.3e17

/-- The state of a `DarkMatterAnnihilationSpectralModel` instance: the
attributes set by `__init__` plus the current value of the `scale`
parameter managed by the `SpectralModel` superclass. -/
structure AnnihilationModel where
  k : ℤ
  z : ℚ
  mass : Quantity
  channel : String
  jfactor : ℚ
  primary_flux : PrimaryFlux
  scale : ℚ

/-- `DarkMatterAnnihilationSpectralModel.__init__(mass, channel, scale,
jfactor, z, k)`: store the attributes and construct one `PrimaryFlux` for
`(mass, channel)`; that construction's errors propagate unchanged. -/
def AnnihilationModel.init (tbl : FluxTable) (mass : Quantity) (channel : String)
    (scale : ℚ) (jfactor : ℚ) (z : ℚ) (k : ℤ) : Except SpectraError AnnihilationModel :=
  match PrimaryFlux.init tbl mass channel with
  | .error e => .error e
  | .ok pf =>
      .ok { k := k, z := z, mass := mass, channel := channel, jfactor := jfactor,
            primary_flux := pf, scale := scale }

/-- `DarkMatterAnnihilationSpectralModel.evaluate(energy, scale)`:
`scale * jfactor * THERMAL_RELIC_CROSS_SECTION * primary_flux(energy*(1+z))
/ k / mass / mass / (4*pi)`.  Calling `self.primary_flux(energy=...)`
invokes `PrimaryFlux.evaluate` with the model's parameter keywords, which
that method overwrites with its own mass; it is embedded as a direct call
with empty keyword arguments.  `piv` stands for `np.pi`. -/
def AnnihilationModel.evaluate (log10 : ℚ → ℚ) (ln10 piv : ℚ)
    (m : AnnihilationModel) (energy scale : ℚ) : ℚ :=
  scale * m.jfactor * THERMAL_RELIC_CROSS_SECTION
    * PrimaryFlux.evaluate log10 ln10 m.primary_flux (energy * (1 + m.z)) []
    / (m.k : ℚ) / m.mass.geV / m.mass.geV / (4 * piv)

/-- An entry of the `parameters` list produced by `SpectralModel.to_dict`:
a parameter name with its current value (further metadata omitted). -/
structure ParamEntry where
  name : String
  value : ℚ
  deriving DecidableEq

/-- The inner dictionary `data["spectral"]` for the annihilation model.
`type` and `parameters` are written by the `SpectralModel` superclass and
are `Option`-valued because `from_dict` pops them; the remaining keys are
written by `to_dict` itself.  The unit-qualified strings `mass.to_string()`
and `jfactor.to_string()` are represented by the quantities they denote
(the unit system's string round trip is lossless). -/
structure AnnSpectral where
  type : Option String
  parameters : Option (List ParamEntry)
  channel : String
  mass : Quantity
  jfactor : ℚ
  z : ℚ
  k : Option ℤ

/-- The outer dictionary passed to `from_dict`, holding `data["spectral"]`
for the annihilation model. -/
structure AnnDict where
  spectral : AnnSpectral

/-- Modelled from the spec (the `SpectralModel.to_dict` superclass part is
not in this module): `DarkMatterAnnihilationSpectralModel.to_dict` exports
the type tag and the `scale` parameter record, then adds `channel`, `mass`,
`jfactor`, `z` and `k`. -/
def AnnihilationModel.to_dict (m : AnnihilationModel) : AnnDict :=
  ⟨{ type := some "DarkMatterAnnihilationSpectralModel"
     parameters := some [⟨"scale", m.scale⟩]
     channel := m.channel
     mass := m.mass
     jfactor := m.jfactor
     z := m.z
     k := some m.k }⟩

/-- `DarkMatterAnnihilationSpectralModel.from_dict(data)`:
take `data["spectral"]`, pop `type` and `parameters` (mutating the caller's
dictionary — the returned `AnnDict` is its state after the call), extract
the `scale` value as `[p["value"] for p in parameters if p["name"] ==
"scale"][0]`, and construct `cls(scale=scale, **data)` (a missing `k` key
falls back to the constructor default 2). -/
def AnnihilationModel.from_dict (tbl : FluxTable) (d : AnnDict) :
    Except SpectraError (AnnihilationModel × AnnDict) :=
  match d.spectral.type with
  | none => .error (.keyError "type")
  | some _ =>
    match d.spectral.parameters with
    | none => .error (.keyError "parameters")
    | some ps =>
      match ((ps.filter (fun p => p.name == "scale")).map (fun p => p.value)).head? with
      | none => .error .indexError
      | some scale =>
        match AnnihilationModel.init tbl d.spectral.mass d.spectral.channel scale
          d.spectral.jfactor d.spectral.z (d.spectral.k.getD 2) with
        | .error e => .error e
        | .ok model =>
            .ok (model, ⟨{ d.spectral with type := none, parameters := none }⟩)

/-- The state of a `DarkMatterDecaySpectralModel` instance: as the
annihilation model but without the particle-type factor `k`. -/
structure DecayModel where
  z : ℚ
  mass : Quantity
  channel : String
  jfactor : ℚ
  primary_flux : PrimaryFlux
  scale : ℚ

/-- `DarkMatterDecaySpectralModel.__init__(mass, channel, scale, jfactor,
z)`. -/
def DecayModel.init (tbl : FluxTable) (mass : Quantity) (channel : String)
    (scale : ℚ) (jfactor : ℚ) (z : ℚ) : Except SpectraError DecayModel :=
  match PrimaryFlux.init tbl mass channel with
  | .error e => .error e
  | .ok pf =>
      .ok { z := z, mass := mass, channel := channel, jfactor := jfactor,
            primary_flux := pf, scale := scale }

/-- `DarkMatterDecaySpectralModel.evaluate(energy, scale)`:
`scale * jfactor * primary_flux(energy*(1+z)) / LIFETIME_AGE_OF_UNIVERSE
/ mass / (4*pi)` — no particle-type factor `k` appears. -/
def DecayModel.evaluate (log10 : ℚ → ℚ) (ln10 piv : ℚ)
    (m : DecayModel) (energy scale : ℚ) : ℚ :=
  scale * m.jfactor
    * PrimaryFlux.evaluate log10 ln10 m.primary_flux (energy * (1 + m.z)) []
    / LIFETIME_AGE_OF_UNIVERSE / m.mass.geV / (4 * piv)

/-- The inner dictionary `data["spectral"]` for the decay model: as the
annihilation one but with no `k` key. -/
structure DecaySpectral where
  type : Option String
  parameters : Option (List ParamEntry)
  channel : String
  mass : Quantity
  jfactor : ℚ
  z : ℚ

/-- The outer dictionary passed to the decay model's `from_dict`. -/
structure DecayDict where
  spectral : DecaySpectral

/-- Modelled from the spec (the `SpectralModel.to_dict` superclass part is
not in this module): `DarkMatterDecaySpectralModel.to_dict` exports the
type tag and the `scale` parameter record, then adds `channel`, `mass`,
`jfactor` and `z`. -/
def DecayModel.to_dict (m : DecayModel) : DecayDict :=
  ⟨{ type := some "DarkMatterDecaySpectralModel"
     parameters := some [⟨"scale", m.scale⟩]
     channel := m.channel
     mass := m.mass
     jfactor := m.jfactor
     z := m.z }⟩

/-- `DarkMatterDecaySpectralModel.from_dict(data)`: pop `type` and
`parameters` from `data["spectral"]` (the returned `DecayDict` is the
caller's dictionary after the call), extract the `scale` value, and
construct `cls(scale=scale, **data)`. -/
def DecayModel.from_dict (tbl : FluxTable) (d : DecayDict) :
    Except SpectraError (DecayModel × DecayDict) :=
  match d.spectral.type with
  | none => .error (.keyError "type")
  | some _ =>
    match d.spectral.parameters with
    | none => .error (.keyError "parameters")
    | some ps =>
      match ((ps.filter (fun p => p.name == "scale")).map (fun p => p.value)).head? with
      | none => .error .indexError
      | some scale =>
        match DecayModel.init tbl d.spectral.mass d.spectral.channel scale
          d.spectral.jfactor d.spectral.z with
        | .error e => .error e
        | .ok model =>
            .ok (model, ⟨{ d.spectral with type := none, parameters := none }⟩)

/-! ### Concrete instances for witnesses

A small concrete flux table and the instances built from it, used to
instantiate the theorems below at explicit inputs. -/

/-- A concrete grid interpolant: tabulated log10x range `[-9, -1]`
(the upper bound is below 0), constant yield inside the table. -/
def grid0 : FillValueGrid :=
  { lo := -9, hi := -1, inner := fun _ _ => 7/5 }

/-- A concrete flux table: mass axis from 5 GeV to 100000 GeV, the same
grid for every channel. -/
def tbl0 : FluxTable :=
  { massMin := 5, massMax := 100000, gridFor := fun _ => grid0 }

/-- A concrete `PrimaryFlux` state over `tbl0` with mass 5000 GeV and
channel `"b"`. -/
def pf0 : PrimaryFlux :=
  { channel := "b", massValue := 5000, massMin := 5, massMax := 100000, grid := grid0 }

/-- A concrete stand-in for `log10` in witnesses: it satisfies
`1 ≤ r → 0 ≤ log10lin r`. -/
def log10lin : ℚ → ℚ :=
  fun r => r - 1

/-- A concrete annihilation model instance: exactly the value produced by
`AnnihilationModel.init tbl0 ⟨5000, 1⟩ "b" 1 1 0 2`. -/
def M0 : AnnihilationModel :=
  { k := 2, z := 0, mass := ⟨5000, 1⟩, channel := "b", jfactor := 1,
    primary_flux :=
      { channel := "b", massValue := 5000 * 1, massMin := 5, massMax := 100000,
        grid := grid0 },
    scale := 1 }

/-- A concrete decay model instance: exactly the value produced by
`DecayModel.init tbl0 ⟨5000, 1⟩ "b" 1 1 0`. -/
def D0 : DecayModel :=
  { z := 0, mass := ⟨5000, 1⟩, channel := "b", jfactor := 1,
    primary_flux :=
      { channel := "b", massValue := 5000 * 1, massMin := 5, massMax := 100000,
        grid := grid0 },
    scale := 1 }

/-- The dictionary state left behind by a successful
`AnnihilationModel.from_dict` on `M0.to_dict`: `type` and `parameters`
popped, the other keys kept. -/
def dA1 : AnnDict :=
  ⟨{ type := none, parameters := none, channel := "b", mass := ⟨5000, 1⟩,
     jfactor := 1, z := 0, k := some 2 }⟩

/-- The dictionary state left behind by a successful
`DecayModel.from_dict` on `D0.to_dict`. -/
def dD1 : DecayDict :=
  ⟨{ type := none, parameters := none, channel := "b", mass := ⟨5000, 1⟩,
     jfactor := 1, z := 0 }⟩

/-! ### Theorems -/

/-- C1: `PrimaryFlux.evaluate(energy)` computes `log10x = log10(energy /
mDM)`, queries the grid interpolant at `(log10x, mDM)` for `dN/dlog10x`,
and returns `dN/dE = dN/dlog10x / (energy * ln 10)` — the Jacobian factor
is never omitted, for any keyword arguments. -/
theorem primaryFlux_evaluate_jacobian (log10 : ℚ → ℚ) (ln10 : ℚ) (pf : PrimaryFlux)
    (energy : ℚ) (kwargs : Kwargs) :
    pf.evaluate log10 ln10 energy kwargs
      = pf.grid.eval (log10 (energy / pf.mDM)) pf.mDM / (energy * ln10) := by
  simp [PrimaryFlux.evaluate, templateNDEvaluate, dictUpdate, lookupKw,
    List.find?, PrimaryFlux.mDM]

/-- C2: `DarkMatterAnnihilationSpectralModel.evaluate(energy, scale)`
returns `scale * jfactor * sigma_v * dN/dE(energy*(1+z)) / (k * mass^2 *
4*pi)`, where `sigma_v` is the fixed constant `3e-26` and `dN/dE` is the
instance's `PrimaryFlux` queried at the blueshifted energy. -/
theorem annihilation_evaluate_formula (log10 : ℚ → ℚ) (ln10 piv : ℚ)
    (m : AnnihilationModel) (energy scale : ℚ) :
    m.evaluate log10 ln10 piv energy scale
      = scale * m.jfactor * THERMAL_RELIC_CROSS_SECTION
          * PrimaryFlux.evaluate log10 ln10 m.primary_flux (energy * (1 + m.z)) []
          / ((m.k : ℚ) * m.mass.geV ^ 2 * (4 * piv))
      ∧ THERMAL_RELIC_CROSS_SECTION = 3 / 10 ^ 26 := by
  constructor
  · unfold AnnihilationModel.evaluate
    ring
  · norm_num [THERMAL_RELIC_CROSS_SECTION]

/-- C3: `DarkMatterDecaySpectralModel.evaluate(energy, scale)` returns
`scale * jfactor * dN/dE(energy*(1+z)) / (tau_universe * mass * 4*pi)`,
where `tau_universe` is the fixed constant `4.3e17` and no particle-type
factor `k` appears (`DecayModel` has no such field). -/
theorem decay_evaluate_formula (log10 : ℚ → ℚ) (ln10 piv : ℚ)
    (m : DecayModel) (energy scale : ℚ) :
    m.evaluate log10 ln10 piv energy scale
      = scale * m.jfactor
          * PrimaryFlux.evaluate log10 ln10 m.primary_flux (energy * (1 + m.z)) []
          / (LIFETIME_AGE_OF_UNIVERSE * m.mass.geV * (4 * piv))
      ∧ LIFETIME_AGE_OF_UNIVERSE = 43 * 10 ^ 16 := by
  constructor
  · unfold DecayModel.evaluate
    ring
  · norm_num [LIFETIME_AGE_OF_UNIVERSE]

/-- C4: querying beyond the tabulated log-energy-ratio range is not an
error: with the fill-value policy of the grid (extrapolation enabled,
out-of-domain fill value 0, upper bound of the tabulated range below 0),
every energy with `x = energy / mDM ≥ 1` (so `log10x ≥ 0`) yields exactly
zero flux, for any `log10` that is nonnegative on `[1, ∞)`. -/
theorem primaryFlux_extrapolation_zero (log10 : ℚ → ℚ) (ln10 : ℚ)
    (pf : PrimaryFlux) (energy : ℚ) (kwargs : Kwargs)
    (hlog : ∀ r, 1 ≤ r → 0 ≤ log10 r)
    (hhi : pf.grid.hi < 0)
    (hx : 1 ≤ energy / pf.mDM) :
    pf.evaluate log10 ln10 energy kwargs = 0 := by
  have h2 : pf.grid.hi < log10 (energy / pf.mDM) :=
    lt_of_lt_of_le hhi (hlog _ hx)
  simp [PrimaryFlux.evaluate, templateNDEvaluate, FillValueGrid.eval, h2]

/-- Witness for C4: on the concrete instance `pf0` (tabulated range
`[-9, -1]`, mass 5000) the flux at energy 10000 (`x = 2 ≥ 1`) is
exactly zero. -/
theorem primaryFlux_extrapolation_zero_witness :
    PrimaryFlux.evaluate log10lin 1 pf0 10000 [] = 0 :=
  primaryFlux_extrapolation_zero log10lin 1 pf0 10000 []
    (fun r hr => sub_nonneg.mpr hr) (by decide)
    ((one_le_div (by decide : (0 : ℚ) < 5000)).mpr (by decide : (5000 : ℚ) ≤ 10000))

/-- C5: the `mDM` setter first converts the candidate to the internal axis
unit (`m.geV`); if the converted value lies outside the inclusive interval
`[massMin, massMax]` it rejects with `massOutOfBounds` reporting the valid
range (so the previously stored state is unchanged and still readable); if
it lies within — endpoints included — it commits the converted value. -/
theorem primaryFlux_setMDM_spec (pf : PrimaryFlux) (m : Quantity) :
    (m.geV < pf.massMin ∨ pf.massMax < m.geV →
      pf.setMDM m = .error (.massOutOfBounds m.geV pf.massMin pf.massMax)) ∧
    (pf.massMin ≤ m.geV → m.geV ≤ pf.massMax →
      pf.setMDM m = .ok { pf with massValue := m.geV }) := by
  constructor
  · intro h
    simp [PrimaryFlux.setMDM, h]
  · intro h1 h2
    have hcond : ¬(m.geV < pf.massMin ∨ pf.massMax < m.geV) := by
      push_neg
      exact ⟨h1, h2⟩
    simp [PrimaryFlux.setMDM, hcond]

/-- Witness for C5: on `pf0` (bounds `[5, 100000]`), mass 200000 GeV is
rejected with the valid range, and the endpoint mass 100000 GeV commits. -/
theorem primaryFlux_setMDM_witness :
    pf0.setMDM ⟨200000, 1⟩
        = .error (.massOutOfBounds (Quantity.geV ⟨200000, 1⟩) pf0.massMin pf0.massMax) ∧
    pf0.setMDM ⟨100000, 1⟩
        = .ok { pf0 with massValue := Quantity.geV ⟨100000, 1⟩ } :=
  ⟨(primaryFlux_setMDM_spec pf0 ⟨200000, 1⟩).1 (by with_unfolding_all decide),
   (primaryFlux_setMDM_spec pf0 ⟨100000, 1⟩).2 (by with_unfolding_all decide)
     (by with_unfolding_all decide)⟩

/-- C6: setting the channel succeeds exactly when the string is a key of
the fixed registry; otherwise it rejects with `invalidChannel` carrying the
registry's full key list (28 keys), leaving the channel unchanged. -/
theorem primaryFlux_setChannel_spec (pf : PrimaryFlux) (c : String) :
    (c ∈ allowed_channels → pf.setChannel c = .ok { pf with channel := c }) ∧
    (c ∉ allowed_channels →
      pf.setChannel c = .error (.invalidChannel c allowed_channels)) ∧
    allowed_channels = channel_registry.map Prod.fst ∧
    allowed_channels.length = 28 := by
  refine ⟨?_, ?_, rfl, rfl⟩
  · intro h
    simp [PrimaryFlux.setChannel, h]
  · intro h
    simp [PrimaryFlux.setChannel, h]

/-- Witness for C6: on `pf0`, the registry key `"b"` is accepted and the
unregistered name `"foo"` is rejected with the full key list. -/
theorem primaryFlux_setChannel_witness :
    pf0.setChannel "b" = .ok { pf0 with channel := "b" } ∧
    pf0.setChannel "foo" = .error (.invalidChannel "foo" allowed_channels) :=
  ⟨(primaryFlux_setChannel_spec pf0 "b").1 (by decide),
   (primaryFlux_setChannel_spec pf0 "foo").2.1 (by decide)⟩

/-- C8: the decay model's output is homogeneous of degree 1 in the `scale`
argument and in the `jfactor` attribute, and the annihilation model's
output is proportional to `1/k` exactly: `k = 2` returns exactly twice the
flux of `k = 4` with all other parameters identical. -/
theorem flux_scaling_linearity (log10 : ℚ → ℚ) (ln10 piv : ℚ)
    (d : DecayModel) (m : AnnihilationModel) (energy scale c : ℚ) :
    DecayModel.evaluate log10 ln10 piv d energy (c * scale)
        = c * DecayModel.evaluate log10 ln10 piv d energy scale ∧
    DecayModel.evaluate log10 ln10 piv { d with jfactor := c * d.jfactor } energy scale
        = c * DecayModel.evaluate log10 ln10 piv d energy scale ∧
    AnnihilationModel.evaluate log10 ln10 piv { m with k := 2 } energy scale
        = 2 * AnnihilationModel.evaluate log10 ln10 piv { m with k := 4 } energy scale := by
  refine ⟨?_, ?_, ?_⟩ <;>
    · simp only [DecayModel.evaluate, AnnihilationModel.evaluate]
      push_cast
      ring

/-- C9: `PrimaryFlux.evaluate` is independent of any caller-supplied `mass`
keyword: the method overwrites the `mass` keyword with the instance's own
`mDM` before querying the interpolant, so two calls differing only in the
caller's `mass` entry return equal results. -/
theorem primaryFlux_evaluate_mass_kwarg_ignored (log10 : ℚ → ℚ) (ln10 : ℚ)
    (pf : PrimaryFlux) (energy : ℚ) (kwargs : Kwargs) (v1 v2 : ℚ) :
    pf.evaluate log10 ln10 energy (("mass", v1) :: kwargs)
      = pf.evaluate log10 ln10 energy (("mass", v2) :: kwargs) := by
  simp [PrimaryFlux.evaluate, dictUpdate, List.filter_cons]

/-- C7: for every annihilation model instance produced by the constructor,
`from_dict(M.to_dict())` succeeds and yields an instance with the same
channel, mass, jfactor, z, k and scale, whose `evaluate` output equals the
original's at every energy and scale (the `PrimaryFlux` interpolant state
is rebuilt from the table rather than serialized, and rebuilding from the
same table reproduces it). -/
theorem annihilation_to_dict_from_dict_roundtrip
    (tbl : FluxTable) (mass : Quantity) (channel : String)
    (scale jfactor z : ℚ) (k : ℤ) (M : AnnihilationModel)
    (h : AnnihilationModel.init tbl mass channel scale jfactor z k = .ok M) :
    ∃ M' d', AnnihilationModel.from_dict tbl M.to_dict = .ok (M', d')
      ∧ M'.channel = M.channel ∧ M'.mass = M.mass ∧ M'.jfactor = M.jfactor
      ∧ M'.z = M.z ∧ M'.k = M.k ∧ M'.scale = M.scale
      ∧ ∀ (log10 : ℚ → ℚ) (ln10 piv energy s : ℚ),
          M'.evaluate log10 ln10 piv energy s
            = M.evaluate log10 ln10 piv energy s := by
  unfold AnnihilationModel.init at h
  split at h
  · simp at h
  next pf heq =>
    rw [Except.ok.injEq] at h
    subst h
    refine ⟨{ k := k, z := z, mass := mass, channel := channel, jfactor := jfactor,
              primary_flux := pf, scale := scale },
            ⟨{ type := none, parameters := none, channel := channel, mass := mass,
               jfactor := jfactor, z := z, k := some k }⟩,
            ?_, rfl, rfl, rfl, rfl, rfl, rfl, fun _ _ _ _ _ => rfl⟩
    unfold AnnihilationModel.from_dict AnnihilationModel.to_dict AnnihilationModel.init
    simp [heq]

/-- Witness for C7: the concrete instance `M0` (channel `"b"`, mass 5000
GeV over `tbl0`) round-trips through `to_dict` / `from_dict`. -/
theorem annihilation_to_dict_from_dict_roundtrip_witness :
    ∃ M' d', AnnihilationModel.from_dict tbl0 M0.to_dict = .ok (M', d')
      ∧ M'.channel = M0.channel ∧ M'.mass = M0.mass ∧ M'.jfactor = M0.jfactor
      ∧ M'.z = M0.z ∧ M'.k = M0.k ∧ M'.scale = M0.scale
      ∧ ∀ (log10 : ℚ → ℚ) (ln10 piv energy s : ℚ),
          M'.evaluate log10 ln10 piv energy s
            = M0.evaluate log10 ln10 piv energy s :=
  annihilation_to_dict_from_dict_roundtrip tbl0 ⟨5000, 1⟩ "b" 1 1 0 2 M0
    (by with_unfolding_all rfl)

/-- C10: a successful `from_dict(d)` call (annihilation or decay) mutates
its argument in place: it requires the `type` and `parameters` keys to be
present in `d["spectral"]`, and after the call they are popped, so the
input dictionary is not left unchanged. -/
theorem from_dict_mutates_argument (tbl : FluxTable) :
    (∀ (d : AnnDict) (m : AnnihilationModel) (d' : AnnDict),
       AnnihilationModel.from_dict tbl d = .ok (m, d') →
         d.spectral.type ≠ none ∧ d.spectral.parameters ≠ none ∧
         d'.spectral.type = none ∧ d'.spectral.parameters = none ∧ d' ≠ d) ∧
    (∀ (d : DecayDict) (m : DecayModel) (d' : DecayDict),
       DecayModel.from_dict tbl d = .ok (m, d') →
         d.spectral.type ≠ none ∧ d.spectral.parameters ≠ none ∧
         d'.spectral.type = none ∧ d'.spectral.parameters = none ∧ d' ≠ d) := by
  constructor
  · intro d m d' h
    unfold AnnihilationModel.from_dict at h
    split at h
    · simp at h
    next t hty =>
      split at h
      · simp at h
      next ps hps =>
        split at h
        · simp at h
        next scl hsc =>
          split at h
          · simp at h
          next model hinit =>
            rw [Except.ok.injEq, Prod.mk.injEq] at h
            obtain ⟨-, hd⟩ := h
            subst hd
            refine ⟨by simp [hty], by simp [hps], rfl, rfl, ?_⟩
            intro he
            have hty2 := congrArg (fun x => x.spectral.type) he
            simp [hty] at hty2
  · intro d m d' h
    unfold DecayModel.from_dict at h
    split at h
    · simp at h
    next t hty =>
      split at h
      · simp at h
      next ps hps =>
        split at h
        · simp at h
        next scl hsc =>
          split at h
          · simp at h
          next model hinit =>
            rw [Except.ok.injEq, Prod.mk.injEq] at h
            obtain ⟨-, hd⟩ := h
            subst hd
            refine ⟨by simp [hty], by simp [hps], rfl, rfl, ?_⟩
            intro he
            have hty2 := congrArg (fun x => x.spectral.type) he
            simp [hty] at hty2

/-- Witness for C10: the concrete dictionaries `M0.to_dict` and
`D0.to_dict` are accepted by the respective `from_dict` and come back with
`type` and `parameters` popped. -/
theorem from_dict_mutates_argument_witness :
    ((AnnihilationModel.to_dict M0).spectral.type ≠ none ∧
     (AnnihilationModel.to_dict M0).spectral.parameters ≠ none ∧
     dA1.spectral.type = none ∧ dA1.spectral.parameters = none ∧
     dA1 ≠ AnnihilationModel.to_dict M0) ∧
    ((DecayModel.to_dict D0).spectral.type ≠ none ∧
     (DecayModel.to_dict D0).spectral.parameters ≠ none ∧
     dD1.spectral.type = none ∧ dD1.spectral.parameters = none ∧
     dD1 ≠ DecayModel.to_dict D0) :=
  ⟨(from_dict_mutates_argument tbl0).1 (AnnihilationModel.to_dict M0) M0 dA1
      (by with_unfolding_all rfl),
   (from_dict_mutates_argument tbl0).2 (DecayModel.to_dict D0) D0 dD1
      (by with_unfolding_all rfl)⟩

end DarkMatterSpectra
